import Mathlib

/-!
Shallow embedding of the pytcpr protocol core: line transport sanitation
(src/pytcpr/client.py), the multi-subscriber broadcast queue
(src/src/pytcpr/mqueue.py), the script-call bracketing algorithm, the
reader loop, run-loop error classification, the ByteStream decoder
(src/pytcpr/protocol.py, src/src/pytcpr/protocol.py) and the event router
(src/src/pytcpr/router.py). Bytes are modelled as Nat, byte strings as
List Nat, and Python exceptions as Except values.
-/

namespace Pytcpr

/-- A protocol line or message: a sequence of bytes. -/
abbrev Msg := List Nat

/-- Exceptions raised by the embedded code: SanitizerError (the repo name
for what the spec calls ProtocolFault), KeyError (set.remove or dict
lookup on a missing key), ValueError (bytes.fromhex on malformed hex),
and ConnectionResetError. -/
inductive Fault where
  | sanitizer
  | keyError
  | valueError
  | connectionReset
  deriving DecidableEq, Repr

/-- protocol_sanitizer = re.compile(b"\n|\r|\x00"): a byte matches iff it
is LF (10), CR (13) or NUL (0). -/
def illegalByte (b : Nat) : Bool := b == 10 || b == 13 || b == 0

/-- TCPRClient.sanitize: protocol_sanitizer.search(line) finds a match iff
some byte of the line is illegal. -/
def hasIllegalByte (line : Msg) : Bool := line.any illegalByte

/-- TCPRClient.write_line: raises SanitizerError if the line has an
illegal byte, then raises SanitizerError if len(line) + 1 >= 16384,
otherwise writes the line followed by a single LF byte and drains.
The ok value is the exact byte sequence written to the transport; on
error nothing has been written, since both checks precede both writes. -/
def write_line (line : Msg) : Except Fault Msg :=
  if hasIllegalByte line then .error .sanitizer
  else if 16384 ≤ line.length + 1 then .error .sanitizer
  else .ok (line ++ [10])

/-- ByteStream (protocol.py): a byte buffer with a read cursor. -/
structure ByteStream where
  data : List Nat
  pos : Nat
  deriving DecidableEq, Repr

/-- int.from_bytes(bs, "big"): big-endian unsigned interpretation. -/
def fromBytesBE (bs : List Nat) : Nat := bs.foldl (fun acc b => acc * 256 + b) 0

/-- ByteStream.read_int: value = int.from_bytes(self.data[self.pos :
self.pos + n_bytes], "big"); self.pos += n_bytes. The Python slice
truncates silently when fewer than n_bytes bytes remain, and the cursor
advances by n_bytes regardless; no exception is ever raised. -/
def ByteStream.read_int (s : ByteStream) (nBytes : Nat) : Nat × ByteStream :=
  (fromBytesBE ((s.data.drop s.pos).take nBytes), { s with pos := s.pos + nBytes })

/-- MultiSubscriberQueue (mqueue.py). self._subscribers is a set of
CancellableSubscriber, each owning an asyncio.Queue; we model the set as
an association list keyed by a unique subscriber id (ids are allocated
from nextId, so a set never holds two entries with the same id), and each
asyncio.Queue as the list of payloads put into it, in order. A payload is
some message, or none: the end-of-queue sentinel pushed by cancel(). -/
structure MultiSubscriberQueue where
  nextId : Nat
  subscribers : List (Nat × List (Option Msg))
  deriving DecidableEq, Repr

/-- The freshly constructed queue: MultiSubscriberQueue.__init__. -/
def mqInit : MultiSubscriberQueue := ⟨0, []⟩

/-- MultiSubscriberQueue._subscribe: adds a fresh CancellableSubscriber
with an empty asyncio.Queue to the set and returns it (here: its id). -/
def MultiSubscriberQueue.subscribe (st : MultiSubscriberQueue) :
    MultiSubscriberQueue × Nat :=
  (⟨st.nextId + 1, st.subscribers ++ [(st.nextId, [])]⟩, st.nextId)

/-- MultiSubscriberQueue.submit: for subscriber in self._subscribers:
await subscriber.queue.put(message). Every currently live subscriber has
the message appended to its private queue. -/
def MultiSubscriberQueue.submit (st : MultiSubscriberQueue) (m : Msg) :
    MultiSubscriberQueue :=
  ⟨st.nextId, st.subscribers.map (fun p => (p.1, p.2 ++ [some m]))⟩

/-- MultiSubscriberQueue.terminate: for subscriber in self._subscribers:
subscriber.cancel(), i.e. queue.put_nowait(None): every currently live
subscriber has the end-of-queue sentinel appended to its queue. -/
def MultiSubscriberQueue.terminate (st : MultiSubscriberQueue) :
    MultiSubscriberQueue :=
  ⟨st.nextId, st.subscribers.map (fun p => (p.1, p.2 ++ [none]))⟩

/-- Lookup of the queue owned by subscriber id i in the subscriber set. -/
def lookupBuf (i : Nat) : List (Nat × List (Option Msg)) → Option (List (Option Msg))
  | [] => none
  | p :: t => if p.1 = i then some p.2 else lookupBuf i t

/-- Removal of the subscriber with id i from the set (ids are unique, so
this removes exactly the one entry set.remove would remove). -/
def removeSub (i : Nat) : List (Nat × List (Option Msg)) → List (Nat × List (Option Msg))
  | [] => []
  | p :: t => if p.1 = i then removeSub i t else p :: removeSub i t

/-- MultiSubscriberQueue._unsubscribe: self._subscribers.remove(subscriber).
Python set.remove raises KeyError when the element is absent; when present
it removes that single element. -/
def MultiSubscriberQueue.unsubscribe (st : MultiSubscriberQueue) (i : Nat) :
    Except Fault MultiSubscriberQueue :=
  if (lookupBuf i st.subscribers).isSome then
    .ok ⟨st.nextId, removeSub i st.subscribers⟩
  else .error .keyError

/-- The private queue contents of subscriber i, or none if i is not (or no
longer) in the subscriber set. -/
def bufferOf (st : MultiSubscriberQueue) (i : Nat) : Option (List (Option Msg)) :=
  lookupBuf i st.subscribers

/-- Consuming a subscription (CancellableSubscriber.get driven by async
for): payloads are taken in queue order; a message payload is yielded and
iteration continues; the none sentinel raises asyncio.CancelledError,
which by design cancels the consuming task, ending the sequence. Result:
the messages yielded in order, and whether the sequence ended at a
sentinel (true) or merely exhausted what has been queued so far and would
block awaiting more (false). -/
def consume : List (Option Msg) → List Msg × Bool
  | [] => ([], false)
  | none :: _ => ([], true)
  | some m :: rest => ((consume rest).1.cons m, (consume rest).2)

/-- The bytes of the fixed f-string segment before the challenge in
TCPRClient.write_script_and_read_responses; ASCII for: string __c=
followed by a single-quote character. -/
def scriptPrologue : Msg := [115, 116, 114, 105, 110, 103, 32, 95, 95, 99, 61, 39]

/-- The bytes of the fixed f-string segment between the challenge and the
script body: a single-quote, then ;tcpr(__c); and an opening brace. -/
def scriptMid1 : Msg := [39, 59, 116, 99, 112, 114, 40, 95, 95, 99, 41, 59, 123]

/-- The bytes of the fixed f-string segment after the script body: a
semicolon, a closing brace, then ;tcpr(__c); . -/
def scriptMid2 : Msg := [59, 125, 59, 116, 99, 112, 114, 40, 95, 95, 99, 41, 59]

/-- script.replace("\n", ""): every LF byte is deleted. -/
def stripNewlines (s : Msg) : Msg := s.filter (fun b => b != 10)

/-- The composed outbound line of write_script_and_read_responses:
script = script.replace("\n", "") followed by the f-string wrapping the
challenge and the stripped script body between the two tcpr(__c) echoes. -/
def composeScriptLine (challenge script : Msg) : Msg :=
  scriptPrologue ++ challenge ++ scriptMid1 ++ stripNewlines script ++ scriptMid2

/-- Writing the composed script line goes through write_line. -/
def writeScriptLine (challenge script : Msg) : Except Fault Msg :=
  write_line (composeScriptLine challenge script)

/-- The response filter of write_script_and_read_responses, run over the
messages delivered to its subscription in order, with the found_challenge
flag: a message equal to the encoded challenge flips the flag the first
time and breaks the loop the second time; any other message is yielded
iff the flag is set. Result: the messages yielded in order, and some rest
when the loop broke at the second challenge leaving rest unconsumed (the
generator then releases its subscription), or none when the delivered
messages ran out without a second challenge. -/
def scriptResponses (challenge : Msg) (found : Bool) :
    List Msg → List Msg × Option (List Msg)
  | [] => ([], none)
  | m :: rest =>
    if m = challenge then
      if found then ([], some rest)
      else scriptResponses challenge true rest
    else if found then
      ((scriptResponses challenge found rest).1.cons m,
       (scriptResponses challenge found rest).2)
    else scriptResponses challenge found rest

/-- The error surfaced by TCPRClient.run to its caller when the gathered
tasks die with ConnectionResetError. -/
inductive RunError where
  | authenticationError
  | connectionReset
  deriving DecidableEq, Repr

/-- The two distinct variables named authed that TCPRClient.run involves.
run assigns authed = False, creating a variable local to the run frame;
the nested client_flow declares global authed, so its authed = True
writes a module-level global, not the run-frame local. -/
structure AuthFlags where
  runLocalAuthed : Bool
  moduleAuthed : Bool
  deriving DecidableEq, Repr

/-- State at the top of run: the run-frame local is False and no module
global has been set. -/
def runFlagsInit : AuthFlags := ⟨false, false⟩

/-- client_flow after _auth succeeds: global authed; authed = True writes
the module-level global and leaves the run-frame local untouched. -/
def clientFlowSetAuthed (f : AuthFlags) : AuthFlags := { f with moduleAuthed := true }

/-- The except ConnectionResetError handler in run: if not authed reads
the run-frame local (the name authed is local to run because run assigns
it), raising AuthenticationError when it is False and re-raising the
original error otherwise. -/
def runExceptClassify (f : AuthFlags) : RunError :=
  if f.runLocalAuthed = false then .authenticationError else .connectionReset

/-- Outcome of run when a ConnectionResetError reaches its except clause,
parameterized by whether the reset happened after _auth completed (in
which case client_flow had already executed authed = True). -/
def runOnConnectionReset (resetAfterAuth : Bool) : RunError :=
  runExceptClassify (if resetAfterAuth then clientFlowSetAuthed runFlagsInit else runFlagsInit)

/-- One result of awaiting self._reader.readline() in _read_line: either
the raw bytes of one line (readline returns b at a clean end of stream
with an empty buffer, i.e. the empty byte string — it does not raise),
or a raised ConnectionResetError. -/
inductive ReadEvent where
  | ok (raw : Msg)
  | connReset
  deriving DecidableEq, Repr

/-- TCPRClient._read_line given the raw readline result: text = text[:-1]
drops the final byte (of the empty string it keeps the empty string),
then timestamp_matcher.sub removes a leading timestamp prefix (stripTs,
passed in because parsing.py is not part of the sources), then sanitize
raises SanitizerError on an illegal byte. -/
def readLineOf (stripTs : Msg → Msg) (raw : Msg) : Except Fault Msg :=
  let text := stripTs raw.dropLast
  if hasIllegalByte text then .error .sanitizer else .ok text

/-- Outcome of running _read_and_dispatch_messages over a prefix of read
events: the messages submitted to the broadcast queue in order, whether
mqueue.terminate() has run, and some fault when the loop ended by
re-raising it (none: the events ran out with the while True loop still
live, awaiting the next readline). -/
structure ReaderOutcome where
  submitted : List Msg
  terminated : Bool
  raised : Option Fault
  deriving DecidableEq, Repr

/-- TCPRClient._read_and_dispatch_messages: while True: message = await
self._read_line(); await self._mqueue.submit(message) — wrapped in a bare
except that terminates the queue and re-raises. The commented-out length
check (see the FIXME in the source) is absent: an empty readline result
is submitted like any other message and the loop continues. -/
def readerLoop (stripTs : Msg → Msg) : List ReadEvent → ReaderOutcome
  | [] => ⟨[], false, none⟩
  | .connReset :: _ => ⟨[], true, some .connectionReset⟩
  | .ok raw :: rest =>
    match readLineOf stripTs raw with
    | .error f => ⟨[], true, some f⟩
    | .ok line =>
      let r := readerLoop stripTs rest
      ⟨line :: r.submitted, r.terminated, r.raised⟩

/-- Value of a hexadecimal digit character, as bytes.fromhex reads it. -/
def hexVal (c : Char) : Option Nat :=
  if c.toNat ≥ 48 ∧ c.toNat ≤ 57 then some (c.toNat - 48)
  else if c.toNat ≥ 97 ∧ c.toNat ≤ 102 then some (c.toNat - 87)
  else if c.toNat ≥ 65 ∧ c.toNat ≤ 70 then some (c.toNat - 55)
  else none

/-- bytes.fromhex on a string of hex-digit pairs: each pair becomes one
byte; a malformed string raises ValueError (here: none). -/
def bytesFromHex : List Char → Option Msg
  | [] => some []
  | [_] => none
  | c1 :: c2 :: rest =>
    match hexVal c1, hexVal c2, bytesFromHex rest with
    | some hi, some lo, some bs => some ((16 * hi + lo) :: bs)
    | _, _, _ => none

/-- Lookup in EventRouter._handlers, a defaultdict(list): __getitem__
never raises KeyError — a missing key yields the default empty list.
Handlers are identified abstractly by Nat ids. -/
def defaultdictGet (m : List (String × List Nat)) (k : String) :
    Except Fault (List Nat) :=
  .ok ((((m.find? (fun p => p.1 == k)).map Prod.snd)).getD [])

/-- What one EventRouter.handle_message call did with a line: the handler
ids gathered for it, and whether the no-matching-handler warning was
logged. -/
structure HandleResult where
  dispatched : List Nat
  loggedWarning : Bool
  deriving DecidableEq, Repr

/-- EventRouter.handle_message: event_matcher.match on the decoded line
(eventMatch, passed in because parsing.py is not part of the sources)
yields the event name and hex payload or none; on none the call returns
having done nothing. Otherwise ByteStream.from_hex decodes the payload
(ValueError propagates), then the handler list is fetched from the
defaultdict — the except KeyError branch would log the warning and
return — and the fetched handlers are gathered concurrently. -/
def handle_message (eventMatch : Msg → Option (String × List Char))
    (handlers : List (String × List Nat)) (line : Msg) :
    Except Fault HandleResult :=
  match eventMatch line with
  | none => .ok ⟨[], false⟩
  | some (name, payloadHex) =>
    match bytesFromHex payloadHex with
    | none => .error .valueError
    | some _ =>
      match defaultdictGet handlers name with
      | .error _ => .ok ⟨[], true⟩
      | .ok hs => .ok ⟨hs, false⟩

/-- The router body (Router.__call__) creates an independent task per
delivered message for handle_message; one message never blocks processing
of the next, so processing a list of lines yields one result per line. -/
def routerProcess (eventMatch : Msg → Option (String × List Char))
    (handlers : List (String × List Nat)) (lines : List Msg) :
    List (Except Fault HandleResult) :=
  lines.map (handle_message eventMatch handlers)

/-! Helper lemmas. -/

theorem lookupBuf_map (f : List (Option Msg) → List (Option Msg)) (i : Nat)
    (l : List (Nat × List (Option Msg))) :
    lookupBuf i (l.map (fun p => (p.1, f p.2))) = (lookupBuf i l).map f := by
  induction l with
  | nil => rfl
  | cons a t ih =>
    by_cases h : a.1 = i
    · simp [lookupBuf, h]
    · simp [lookupBuf, h, ih]

theorem bufferOf_submit (st : MultiSubscriberQueue) (m : Msg) (i : Nat) :
    bufferOf (st.submit m) i = (bufferOf st i).map (fun b => b ++ [some m]) := by
  unfold bufferOf MultiSubscriberQueue.submit
  exact lookupBuf_map (fun b => b ++ [some m]) i st.subscribers

theorem bufferOf_terminate (st : MultiSubscriberQueue) (i : Nat) :
    bufferOf st.terminate i = (bufferOf st i).map (fun b => b ++ [none]) := by
  unfold bufferOf MultiSubscriberQueue.terminate
  exact lookupBuf_map (fun b => b ++ [none]) i st.subscribers

theorem lookupBuf_removeSub (i : Nat) (l : List (Nat × List (Option Msg))) :
    lookupBuf i (removeSub i l) = none := by
  induction l with
  | nil => rfl
  | cons a t ih =>
    by_cases h : a.1 = i
    · simp [removeSub, h, ih]
    · simp [removeSub, lookupBuf, h, ih]

theorem unsubscribe_ok_subscribers (st st2 : MultiSubscriberQueue) (i : Nat)
    (h : st.unsubscribe i = .ok st2) :
    st2.subscribers = removeSub i st.subscribers := by
  unfold MultiSubscriberQueue.unsubscribe at h
  split at h
  · cases h
    rfl
  · cases h

theorem consume_map_some (ms : List Msg) : consume (ms.map some) = (ms, false) := by
  induction ms with
  | nil => rfl
  | cons m t ih => simp [consume, ih]

theorem consume_map_some_none (ms : List Msg) :
    consume (ms.map some ++ [none]) = (ms, true) := by
  induction ms with
  | nil => rfl
  | cons m t ih => simp [consume, ih]

theorem bufferOf_foldl_submit (ms : List Msg) (st : MultiSubscriberQueue) (i : Nat)
    (b : List (Option Msg)) (h : bufferOf st i = some b) :
    bufferOf (ms.foldl MultiSubscriberQueue.submit st) i = some (b ++ ms.map some) := by
  induction ms generalizing st b with
  | nil => simpa using h
  | cons m t ih =>
    have h2 : bufferOf (st.submit m) i = some (b ++ [some m]) := by
      rw [bufferOf_submit, h]
      rfl
    have h3 := ih (st.submit m) (b ++ [some m]) h2
    rw [List.foldl_cons, h3, List.append_assoc]
    rfl

theorem lookupBuf_append_fresh (n : Nat) (l : List (Nat × List (Option Msg)))
    (h : ∀ p ∈ l, p.1 < n) :
    lookupBuf n (l ++ [(n, ([] : List (Option Msg)))]) = some [] := by
  induction l with
  | nil => simp [lookupBuf]
  | cons a t ih =>
    have ha : ¬ a.1 = n := Nat.ne_of_lt (h a (List.mem_cons_self a t))
    rw [List.cons_append]
    simp only [lookupBuf, if_neg ha]
    exact ih (fun p hp => h p (List.mem_cons_of_mem a hp))

theorem bufferOf_subscribe_fresh (st : MultiSubscriberQueue)
    (h : ∀ p ∈ st.subscribers, p.1 < st.nextId) :
    bufferOf st.subscribe.1 st.subscribe.2 = some [] := by
  unfold bufferOf MultiSubscriberQueue.subscribe
  exact lookupBuf_append_fresh st.nextId st.subscribers h

theorem scriptResponses_discard (c : Msg) (pre : List Msg) (h : c ∉ pre)
    (rest : List Msg) :
    scriptResponses c false (pre ++ rest) = scriptResponses c false rest := by
  induction pre with
  | nil => rfl
  | cons m t ih =>
    have hm : ¬ m = c := fun e => h (by rw [e]; exact List.mem_cons_self c t)
    rw [List.cons_append]
    rw [show scriptResponses c false (m :: (t ++ rest))
        = scriptResponses c false (t ++ rest) by simp [scriptResponses, hm]]
    exact ih (fun hc => h (List.mem_cons_of_mem m hc))

theorem scriptResponses_collect (c : Msg) (mid : List Msg) (h : c ∉ mid)
    (post : List Msg) :
    scriptResponses c true (mid ++ c :: post) = (mid, some post) := by
  induction mid with
  | nil => simp [scriptResponses]
  | cons m t ih =>
    have hm : ¬ m = c := fun e => h (by rw [e]; exact List.mem_cons_self c t)
    have ht := ih (fun hc => h (List.mem_cons_of_mem m hc))
    rw [List.cons_append]
    simp [scriptResponses, hm, ht]

/-! Claim theorems. -/

/-- Claim C1 (code bug): after a ConnectionResetError reaches the except
clause of TCPRClient.run, the code raises AuthenticationError regardless
of whether authentication had completed: client_flow declares global
authed, so its authed = True writes a module-level global while the
except clause reads the run-frame local authed, which stays False. The
claim (with the spec) requires a distinct post-auth connection error when
the transport closes after authentication completes; the code raises
AuthenticationError there too. The first two conjuncts show client_flow
updated only the module global; the last two evaluate the classification
for a reset after and before authentication. -/
theorem run_misclassifies_post_auth_reset :
    (clientFlowSetAuthed runFlagsInit).moduleAuthed = true
  ∧ (clientFlowSetAuthed runFlagsInit).runLocalAuthed = false
  ∧ runOnConnectionReset true = RunError.authenticationError
  ∧ runOnConnectionReset false = RunError.authenticationError :=
  ⟨rfl, rfl, rfl, rfl⟩

/-- Claim C2: for a fresh token c, the script-call filter discards every
delivered line before the first occurrence of c, yields exactly the lines
strictly between the first and second occurrence of c, and breaks at the
second occurrence leaving the rest of the stream unconsumed (the
generator then releases its subscription). -/
theorem script_call_bracketing (c : Msg) (pre mid post : List Msg)
    (hpre : c ∉ pre) (hmid : c ∉ mid) :
    scriptResponses c false (pre ++ c :: (mid ++ c :: post)) = (mid, some post) := by
  rw [scriptResponses_discard c pre hpre]
  rw [show scriptResponses c false (c :: (mid ++ c :: post))
      = scriptResponses c true (mid ++ c :: post) by simp [scriptResponses]]
  exact scriptResponses_collect c mid hmid post

/-- Witness for C2: token T, inbound lines T, L, T with L distinct from
T: the call yields exactly the list holding L and ends at the second T. -/
theorem script_call_bracketing_witness :
    scriptResponses [116] false [[116], [108], [116]] = ([[108]], some []) := by
  have h := script_call_bracketing [116] [] [[108]] [] (by simp) (by simp)
  simpa using h

/-- Claim C3: write_line on a line free of LF, CR and NUL with framed
length below 16384 succeeds and puts exactly the line followed by one LF
on the wire; on an illegal byte or an oversize line it fails with
SanitizerError (the ProtocolFault of the spec) having written nothing. -/
theorem write_line_contract (L : Msg) :
    ((∀ b ∈ L, b ≠ 10 ∧ b ≠ 13 ∧ b ≠ 0) → L.length + 1 < 16384 →
       write_line L = .ok (L ++ [10]))
  ∧ ((∃ b ∈ L, b = 10 ∨ b = 13 ∨ b = 0) ∨ 16384 ≤ L.length + 1 →
       write_line L = .error .sanitizer) := by
  constructor
  · intro hfree hlen
    have hI : hasIllegalByte L = false := by
      rw [hasIllegalByte, List.any_eq_false]
      intro b hb
      rcases hfree b hb with ⟨h10, h13, h0⟩
      simp [illegalByte, h10, h13, h0]
    unfold write_line
    rw [hI]
    simp [Nat.not_le.mpr hlen]
  · intro hbad
    unfold write_line
    rcases hbad with ⟨b, hb, hval⟩ | hlen
    · have hI : hasIllegalByte L = true := by
        rw [hasIllegalByte, List.any_eq_true]
        refine ⟨b, hb, ?_⟩
        rcases hval with h | h | h <;> simp [illegalByte, h]
      rw [hI]
      simp
    · by_cases hI : hasIllegalByte L
      · simp [hI]
      · simp [hI, hlen]

/-- Witness for C3: a legal two-byte line is framed with one LF; a line
holding an LF byte is rejected with SanitizerError. -/
theorem write_line_contract_witness :
    write_line [104, 105] = .ok [104, 105, 10]
  ∧ write_line [104, 10] = .error .sanitizer := by
  constructor
  · have h := (write_line_contract [104, 105]).1 (by decide) (by decide)
    simpa using h
  · exact (write_line_contract [104, 10]).2 (.inl ⟨10, by simp, .inl rfl⟩)

/-- Claim C4 (code bug): a raised fault does terminate the broadcast
queue and re-raise (second conjunct), but a clean end of stream does not
end the loop at all: readline returns the empty byte string, _read_line
turns it into an empty message, and the loop submits it and keeps going —
the queue is never terminated (first conjunct; the FIXME comment and the
commented-out length check in the source acknowledge exactly this). The
claim says transport closure also terminates the queue and ends the
loop. -/
theorem reader_loop_eof_not_terminated (stripTs : Msg → Msg) (h : stripTs [] = []) :
    readerLoop stripTs [ReadEvent.ok [], ReadEvent.ok []]
      = ⟨[[], []], false, none⟩
  ∧ readerLoop stripTs [ReadEvent.connReset]
      = ⟨[], true, some Fault.connectionReset⟩ := by
  constructor
  · simp [readerLoop, readLineOf, h, hasIllegalByte]
  · rfl

/-- Witness for C4: the identity timestamp stripper keeps the empty line
empty, and the loop behaves as stated. -/
theorem reader_loop_eof_not_terminated_witness :
    readerLoop (fun l => l) [ReadEvent.ok [], ReadEvent.ok []]
      = ⟨[[], []], false, none⟩ :=
  (reader_loop_eof_not_terminated (fun l => l) rfl).1

/-- Claim C5: with submissions m1, m2, m3 and one subscriber joining
before m1 (id 0) and one after m1 but before m2 (id 1), subscriber 0
buffers and observes exactly m1, m2, m3 in order and subscriber 1 exactly
m2, m3. In general a live subscriber with buffer b receives any further
submissions appended in global submission order, and a fresh subscriber
starts with an empty buffer: it never sees lines submitted before it
subscribed. -/
theorem broadcast_order_and_isolation :
    (∀ m1 m2 m3 : Msg,
        bufferOf ((((mqInit.subscribe.1.submit m1).subscribe.1).submit m2).submit m3) 0
          = some [some m1, some m2, some m3]
      ∧ bufferOf ((((mqInit.subscribe.1.submit m1).subscribe.1).submit m2).submit m3) 1
          = some [some m2, some m3]
      ∧ consume [some m1, some m2, some m3] = ([m1, m2, m3], false)
      ∧ consume [some m2, some m3] = ([m2, m3], false))
  ∧ (∀ (st : MultiSubscriberQueue) (i : Nat) (b : List (Option Msg)) (ms : List Msg),
        bufferOf st i = some b →
        bufferOf (ms.foldl MultiSubscriberQueue.submit st) i = some (b ++ ms.map some))
  ∧ (∀ st : MultiSubscriberQueue, (∀ p ∈ st.subscribers, p.1 < st.nextId) →
        bufferOf st.subscribe.1 st.subscribe.2 = some []) :=
  ⟨fun _ _ _ => ⟨rfl, rfl, rfl, rfl⟩,
   fun st i b ms h => bufferOf_foldl_submit ms st i b h,
   fun st h => bufferOf_subscribe_fresh st h⟩

/-- Witness for C5: concrete instances of the two general conjuncts. -/
theorem broadcast_order_and_isolation_witness :
    bufferOf ([[7], [8]].foldl MultiSubscriberQueue.submit mqInit.subscribe.1) 0
      = some ([] ++ [some [7], some [8]])
  ∧ bufferOf mqInit.subscribe.1 mqInit.subscribe.2 = some [] := by
  constructor
  · exact broadcast_order_and_isolation.2.1 mqInit.subscribe.1 0 [] [[7], [8]] rfl
  · exact broadcast_order_and_isolation.2.2 mqInit (by simp [mqInit])

/-- Claim C6: terminate appends the end-of-queue sentinel to every live
subscription, so a subscription whose buffer held exactly the messages ms
yields exactly ms and then ends (the sentinel triggers the designed
cancellation of the consuming task; no message-level error value exists
in the consumption model, mirroring CancellableSubscriber.get, which
either returns a payload or ends the task). A submit after an unsubscribe
does not deliver to the removed subscription. -/
theorem terminate_ends_live_subscriptions :
    (∀ (st : MultiSubscriberQueue) (i : Nat) (ms : List Msg),
        bufferOf st i = some (ms.map some) →
        bufferOf st.terminate i = some (ms.map some ++ [none])
      ∧ consume (ms.map some ++ [none]) = (ms, true))
  ∧ (∀ (st st2 : MultiSubscriberQueue) (i : Nat) (m : Msg),
        st.unsubscribe i = .ok st2 →
        bufferOf (st2.submit m) i = none) := by
  constructor
  · intro st i ms h
    refine ⟨?_, consume_map_some_none ms⟩
    rw [bufferOf_terminate, h]
    rfl
  · intro st st2 i m h
    rw [bufferOf_submit]
    have h2 : bufferOf st2 i = none := by
      unfold bufferOf
      rw [unsubscribe_ok_subscribers st st2 i h]
      exact lookupBuf_removeSub i st.subscribers
    rw [h2]
    rfl

/-- Witness for C6: one live subscription holding one message, and one
removed subscription that a later submit does not reach. -/
theorem terminate_ends_live_subscriptions_witness :
    bufferOf (MultiSubscriberQueue.terminate ⟨1, [(0, [some [5]])]⟩) 0
      = some ([[5]].map some ++ [none])
  ∧ consume ([[5]].map some ++ [none]) = ([[5]], true)
  ∧ bufferOf (MultiSubscriberQueue.submit ⟨1, []⟩ [9]) 0 = none := by
  have h1 := terminate_ends_live_subscriptions.1 ⟨1, [(0, [some [5]])]⟩ 0 [[5]] rfl
  have h2 := terminate_ends_live_subscriptions.2 ⟨1, [(0, [])]⟩ ⟨1, []⟩ 0 [9] rfl
  exact ⟨h1.1, h1.2, h2⟩

/-- Counterexample for C7: unsubscribing the only subscription of a queue
succeeds once; the second unsubscribe of the same subscription does not
succeed as the claim states — set.remove raises KeyError on an absent
element. -/
theorem unsubscribe_twice_raises :
    MultiSubscriberQueue.unsubscribe ⟨1, [(0, [])]⟩ 0 = .ok ⟨1, []⟩
  ∧ MultiSubscriberQueue.unsubscribe ⟨1, []⟩ 0 = .error .keyError :=
  ⟨rfl, rfl⟩

/-- Claim C7 as amended: unsubscribing a live subscription succeeds and
removes it from future submit and terminate targets, but unsubscribe is
not idempotent: a second unsubscribe of the same subscription raises
KeyError. -/
theorem unsubscribe_removes_but_not_idempotent :
    ∀ (st st2 : MultiSubscriberQueue) (i : Nat) (m : Msg),
    st.unsubscribe i = .ok st2 →
    st2.unsubscribe i = .error .keyError
  ∧ bufferOf (st2.submit m) i = none
  ∧ bufferOf st2.terminate i = none := by
  intro st st2 i m h
  have hsub := unsubscribe_ok_subscribers st st2 i h
  have hnone : bufferOf st2 i = none := by
    unfold bufferOf
    rw [hsub]
    exact lookupBuf_removeSub i st.subscribers
  have hl : lookupBuf i st2.subscribers = none := hnone
  refine ⟨?_, ?_, ?_⟩
  · unfold MultiSubscriberQueue.unsubscribe
    rw [hl]
    rfl
  · rw [bufferOf_submit, hnone]
    rfl
  · rw [bufferOf_terminate, hnone]
    rfl

/-- Witness for C7 amended: a queue with one subscription, unsubscribed
once. -/
theorem unsubscribe_removes_but_not_idempotent_witness :
    MultiSubscriberQueue.unsubscribe ⟨2, []⟩ 1 = .error .keyError
  ∧ bufferOf (MultiSubscriberQueue.submit ⟨2, []⟩ [3]) 1 = none
  ∧ bufferOf (MultiSubscriberQueue.terminate ⟨2, []⟩) 1 = none :=
  unsubscribe_removes_but_not_idempotent ⟨2, [(1, [])]⟩ ⟨2, []⟩ 1 [3] rfl

/-- Counterexample for C8: read_int of 2 bytes on a buffer with only one
remaining byte does not fail with any DecodeFault — the Python slice
truncates, so the call returns the big-endian value of the single
remaining byte and still advances the cursor to 2, past the end. The
embedding has no error channel because the source raises nothing. -/
theorem read_int_short_buffer_succeeds :
    ByteStream.read_int ⟨[1], 0⟩ 2 = (1, ⟨[1], 2⟩) := rfl

/-- Claim C8 as amended: when at least n bytes remain, read_int n returns
those n bytes as a big-endian unsigned integer and advances the cursor by
n; when fewer remain it does not fail: it returns the big-endian value of
the bytes that do remain (zero when none) and still advances the cursor
by n. -/
theorem read_int_truncating_contract (pre b post : List Nat) (n : Nat) :
    (b.length = n →
       ByteStream.read_int ⟨pre ++ (b ++ post), pre.length⟩ n
         = (fromBytesBE b, ⟨pre ++ (b ++ post), pre.length + n⟩))
  ∧ (b.length ≤ n →
       ByteStream.read_int ⟨pre ++ b, pre.length⟩ n
         = (fromBytesBE b, ⟨pre ++ b, pre.length + n⟩)) := by
  constructor
  · intro h
    subst h
    unfold ByteStream.read_int
    simp [List.drop_left, List.take_left]
  · intro h
    unfold ByteStream.read_int
    simp [List.drop_left, List.take_of_length_le h]

/-- Witness for C8 amended: a full two-byte read in the middle of a
buffer, and a truncated read on a one-byte tail. -/
theorem read_int_truncating_contract_witness :
    ByteStream.read_int ⟨[0] ++ ([1, 2] ++ [9]), 1⟩ 2
      = (fromBytesBE [1, 2], ⟨[0] ++ ([1, 2] ++ [9]), 1 + 2⟩)
  ∧ ByteStream.read_int ⟨[] ++ [5], 0⟩ 3
      = (fromBytesBE [5], ⟨[] ++ [5], 0 + 3⟩) := by
  constructor
  · exact (read_int_truncating_contract [0] [1, 2] [9] 2).1 rfl
  · exact (read_int_truncating_contract [] [5] [] 3).2 (by decide)

/-- Claim C9 (code bug): an event frame whose name has no registered
handler is dropped without raising, and the next line is still processed
— but the unmatched name is never logged: EventRouter._handlers is a
defaultdict(list), whose lookup never raises KeyError, so the except
KeyError branch carrying the warning is unreachable. Here the first line
is an event frame named spawn with a valid hex payload while only chat is
registered (for handler id 0): the result dispatches nothing and has
loggedWarning false, against the claim; the second line is a chat frame
and is dispatched normally. -/
theorem unmatched_event_dropped_silently :
    routerProcess
      (fun l => if l = [1] then some ("spawn", ['0', '0'])
                else if l = [2] then some ("chat", ['f', 'f']) else none)
      [("chat", [0])] [[1], [2]]
      = [.ok ⟨[], false⟩, .ok ⟨[0], false⟩] := by
  rfl

/-- Claim C10: write_script_and_read_responses deletes every LF byte of
the script before composing the outbound line, so a script containing
newlines (but otherwise legal and short enough) does not trip the
write_line sanitizer: the line actually written is the script with all
newlines removed, wrapped between the two token echoes. -/
theorem script_newlines_stripped (challenge script : Msg)
    (hch : hasIllegalByte challenge = false)
    (hscript : ∀ b ∈ script, b ≠ 13 ∧ b ≠ 0)
    (hlen : (composeScriptLine challenge script).length + 1 < 16384) :
    writeScriptLine challenge script
      = .ok (composeScriptLine challenge script ++ [10])
  ∧ composeScriptLine challenge script
      = scriptPrologue ++ challenge ++ scriptMid1
          ++ script.filter (fun b => b != 10) ++ scriptMid2 := by
  have hfilter : (stripNewlines script).any illegalByte = false := by
    rw [List.any_eq_false]
    intro b hb
    rw [stripNewlines, List.mem_filter] at hb
    rcases hb with ⟨hmem, h10⟩
    rcases hscript b hmem with ⟨h13, h0⟩
    have h10x : b ≠ 10 := by simpa using h10
    simp [illegalByte, h10x, h13, h0]
  have hchx : challenge.any illegalByte = false := hch
  have hP : scriptPrologue.any illegalByte = false := by decide
  have hM1 : scriptMid1.any illegalByte = false := by decide
  have hM2 : scriptMid2.any illegalByte = false := by decide
  have hcomp : hasIllegalByte (composeScriptLine challenge script) = false := by
    rw [composeScriptLine, hasIllegalByte]
    simp [List.any_append, hchx, hfilter, hP, hM1, hM2]
  constructor
  · rw [writeScriptLine]
    unfold write_line
    rw [hcomp]
    simp [Nat.not_le.mpr hlen]
  · rfl

/-- Witness for C10: challenge bytes of an at-pytcpr-style token and the
script bytes of foo, LF, bar. -/
theorem script_newlines_stripped_witness :
    writeScriptLine [64, 112, 121, 116, 99, 112, 114, 126, 120]
        [102, 111, 111, 10, 98, 97, 114]
      = .ok (composeScriptLine [64, 112, 121, 116, 99, 112, 114, 126, 120]
          [102, 111, 111, 10, 98, 97, 114] ++ [10]) :=
  (script_newlines_stripped [64, 112, 121, 116, 99, 112, 114, 126, 120]
    [102, 111, 111, 10, 98, 97, 114] (by decide) (by decide) (by decide)).1

end Pytcpr
